import Mathlib

/-!
Shallow embedding of the ATA/ATAPI driver (src/kernel/device/ata.c) of the
Alien kernel, together with theorems settling the specification claims.

Hardware is modelled as a deterministic environment: successive reads of the
status port are given by a sequence `statusSeq : Nat → Nat`, single reads of
the LBA-mid/LBA-high ports by the fields `lbamid`/`lbahi`, and successive
reads of the 16-bit data port by `dataSeq`. Port writes have no effect on the
environment and are not recorded except for the 12-byte ATAPI command packet,
which is kept in the output because several claims are about its contents.
`inb` returns a byte, so every environment value is reduced mod 256 at the
point of reading (mod 65536 for `inw`).

The unbounded C polling loops (`do { s = inb(..); } while (cond);`) are
modelled by `findFirst`, a fuel-bounded search for the first index at which
the exit condition holds; a loop that never exits makes the enclosing
operation return `none` for every amount of fuel.
-/

namespace Alien

/-- Embeds `enum ata_device_type` from ata.c. -/
inductive AtaType where
  | unknown
  | patapi
  | satapi
  | pata
  | sata
deriving DecidableEq, Repr

/-- Embeds `struct ata_device` from ata.c. -/
structure AtaDevice where
  type : AtaType
  base_port : Nat
  control_port : Nat
  slave_bit : Nat
  lba48_support : Nat
  lba48_total : Nat
  lba28_total : Nat
  pos : Nat
deriving DecidableEq, Repr

/-- Macro `ATA_ISBSY(status)`: bit 7. -/
def ATA_ISBSY (s : Nat) : Bool := s &&& (1 <<< 7) != 0

/-- Macro `ATA_ISRDY(status)`: bit 6. -/
def ATA_ISRDY (s : Nat) : Bool := s &&& (1 <<< 6) != 0

/-- Macro `ATA_ISDRQ(status)`: bit 3. -/
def ATA_ISDRQ (s : Nat) : Bool := s &&& (1 <<< 3) != 0

/-- Macro `ATA_ISERR(status)`: bit 0. -/
def ATA_ISERR (s : Nat) : Bool := s &&& 1 != 0

/-- Embeds `ata_device_is_packet` from ata.c. -/
def ata_device_is_packet (d : AtaDevice) : Bool :=
  d.type == AtaType.patapi || d.type == AtaType.satapi

/-- Hardware environment of one protocol operation (responses of the ports). -/
structure Env where
  statusSeq : Nat → Nat
  lbamid : Nat
  lbahi : Nat
  dataSeq : Nat → Nat

/-- First index `k ≥ start`, within `fuel` probes, at which the polled byte
`f k % 256` satisfies the exit condition `p`; `none` when the loop has not
exited after `fuel` probes. This is the common shape of every
`do { status = inb(port); } while (...)` loop in ata.c. -/
def findFirst (p : Nat → Bool) (f : Nat → Nat) : Nat → Nat → Option Nat
  | _, 0 => none
  | start, fuel + 1 =>
    if p (f start % 256) then some start else findFirst p f (start + 1) fuel

/-- Embeds `ata_wait_bsy_clear` from ata.c: poll the status port until the busy bit
clears; returns the final status byte and the index of the next unread
status response. -/
def ata_wait_bsy_clear (f : Nat → Nat) (start fuel : Nat) : Option (Nat × Nat) :=
  (findFirst (fun s => !ATA_ISBSY s) f start fuel).map fun k => (f k % 256, k + 1)

/-- Embeds `ata_wait_drq_set` from ata.c: poll the status port until the data-request
bit or the error bit sets. -/
def ata_wait_drq_set (f : Nat → Nat) (start fuel : Nat) : Option (Nat × Nat) :=
  (findFirst (fun s => ATA_ISDRQ s || ATA_ISERR s) f start fuel).map
    fun k => (f k % 256, k + 1)

/-- The 12-byte command packet built by `atapi_read_block`:
`read_cmd[0] = 0xA8`, `read_cmd[9] = 1`, `read_cmd[2..5]` the LBA big-endian,
all other bytes zero. -/
def atapiPacket (lba : Nat) : List Nat :=
  [0xA8, 0, (lba >>> 0x18) &&& 0xFF, (lba >>> 0x10) &&& 0xFF,
   (lba >>> 0x08) &&& 0xFF, (lba >>> 0x00) &&& 0xFF, 0, 0, 0, 1, 0, 0]

/-- Result of one `atapi_read_block` call. `err` is the `return -1` path;
`packet` is the command packet sent over the data port (empty on the error
path, which aborts before `outsw`); `buffer` is the list of 16-bit words the
`insw(dev->base_port, buffer, size / 2)` call writes into the caller's
buffer. `dev` is the descriptor after the call (the C function never assigns
any field of `*dev`). -/
structure BlockReadOut where
  dev : AtaDevice
  err : Bool
  size : Nat
  packet : List Nat
  buffer : List Nat
deriving DecidableEq, Repr

/-- The C return value (`result_t`, an integer): `-1` on error, else the
hardware-reported size. -/
def BlockReadOut.cret (o : BlockReadOut) : Int :=
  if o.err then -1 else (o.size : Int)

/-- Embeds `atapi_read_block` from ata.c. The drive-select, feature, byte-count-limit
and command-opcode writes (`outb` calls) do not affect the environment; the
three polling loops, the error check, the packet transmission, the size
read-back from LBA-high/mid (big-endian) and the `insw` transfer of
`size / 2` words are modelled exactly. -/
def atapi_read_block (env : Env) (dev : AtaDevice) (lba maxlen fuel : Nat) :
    Option BlockReadOut :=
  (findFirst (fun s => s &&& 0x80 == 0) env.statusSeq 0 fuel).bind fun k1 =>
  (findFirst (fun s => s &&& 0x8 != 0 || s &&& 0x1 != 0) env.statusSeq (k1 + 1)
      fuel).bind fun k2 =>
  if env.statusSeq k2 % 256 &&& 0x1 != 0 then
    some { dev := dev, err := true, size := 0, packet := [], buffer := [] }
  else
    let size := (env.lbahi % 256) <<< 8 ||| (env.lbamid % 256)
    (findFirst (fun s => s &&& 0x88 == 0) env.statusSeq (k2 + 1) fuel).map fun _ =>
      { dev := dev, err := false, size := size, packet := atapiPacket lba,
        buffer := (List.range (size / 2)).map fun i => env.dataSeq i % 65536 }

/-- Success constant of `result_t`. Modelled from the spec: `OK` comes from the
generic device layer (not under src/); the spec calls it the success result. -/
def OK : Int := 0

/-- Result of one `ata_read` call: the block-read outcome, the value stored
through the `uint32_t *size` in/out pointer, and the returned `result_t`. -/
structure ReadOut where
  block : BlockReadOut
  sizeOut : Nat
  ret : Int
deriving DecidableEq, Repr

/-- Embeds `ata_read` from ata.c: `*size = atapi_read_block(ata_dev, ata_dev->pos,
out, *size); return OK;`. The `int32_t` return value is stored into a
`uint32_t`, hence the `% 2^32` conversion. -/
def ata_read (env : Env) (dev : AtaDevice) (sizeIn fuel : Nat) : Option ReadOut :=
  (atapi_read_block env dev dev.pos sizeIn fuel).map fun o =>
    { block := o, sizeOut := (o.cret.emod 4294967296).toNat, ret := OK }

/-- Embeds `ata_write` from ata.c: the function body is empty, so the descriptor and
the size cell are untouched and the returned `result_t` is indeterminate;
the indeterminate value is supplied explicitly as `garbage`. -/
def ata_write (garbage : Int) (dev : AtaDevice) (sizeIn : Nat) :
    AtaDevice × Nat × Int :=
  (dev, sizeIn, garbage)

/-- Embeds `ata_seek` from ata.c: store the position into the `uint32_t pos` field
and return `OK`, unconditionally. -/
def ata_seek (dev : AtaDevice) (p : Nat) : AtaDevice × Int :=
  ({ dev with pos := p % 4294967296 }, OK)

/-- Embeds `ata_cmd_identify` from ata.c. Returns `none` when a polling loop never
exits; `some none` for the `return 0` failure paths (drive absent, error bit,
non-zero LBA-mid/high, error during the data-request wait), on which the
caller's buffer is untouched; `some (some words)` on success with the 256
words read from the data port. -/
def ata_cmd_identify (env : Env) (fuel : Nat) : Option (Option (List Nat)) :=
  (ata_wait_bsy_clear env.statusSeq 0 fuel).bind fun sn =>
  if sn.1 == 0 then some none
  else if ATA_ISERR sn.1 then some none
  else if env.lbamid % 256 != 0 || env.lbahi % 256 != 0 then some none
  else
    (ata_wait_drq_set env.statusSeq sn.2 fuel).bind fun sn2 =>
    if ATA_ISERR sn2.1 then some none
    else some (some ((List.range 256).map fun i => env.dataSeq i % 65536))

/-- Environment of one `ata_detect` call: status responses of the post-reset
busy wait, the two signature bytes, the sub-environment of the IDENTIFY call,
and the initial (uninitialized stack) contents of the local
`uint16_t buffer[256]`, which `ata_detect` still reads when
`ata_cmd_identify` fails. -/
structure DetectEnv where
  resetStatusSeq : Nat → Nat
  sigMid : Nat
  sigHi : Nat
  idEnv : Env
  stackGarbage : Nat → Nat

/-- The signature classification chain of `ata_detect`: the four exact byte
pairs assign a type; any other pair leaves `device->type` unchanged (the
field is never initialized by `ata_detect`). -/
def classifySig (t : AtaType) (mid hi : Nat) : AtaType :=
  if mid == 0x14 && hi == 0xEB then AtaType.patapi
  else if mid == 0x69 && hi == 0x96 then AtaType.satapi
  else if mid == 0 && hi == 0 then AtaType.pata
  else if mid == 0x3C && hi == 0xC3 then AtaType.sata
  else t

/-- Embeds `ata_detect` from ata.c: fill ports, software reset, wait for busy clear
(the not-ready case only logs), read the two signature bytes, classify,
call IDENTIFY (a failure only logs), then validate word 0 of the buffer —
which is the uninitialized stack garbage when IDENTIFY failed. Returns the
C result (`1` success / `0` failure, as a `Bool`) and the written-through
descriptor. -/
def ata_detect (env : DetectEnv) (base control slave : Nat) (dev : AtaDevice)
    (fuel : Nat) : Option (Bool × AtaDevice) :=
  let dev1 : AtaDevice :=
    { dev with base_port := base, control_port := control, slave_bit := slave }
  (ata_wait_bsy_clear env.resetStatusSeq 0 fuel).bind fun _ =>
  let mid := env.sigMid % 256
  let hi := env.sigHi % 256
  let dev2 : AtaDevice := { dev1 with type := classifySig dev1.type mid hi }
  (ata_cmd_identify env.idEnv fuel).map fun idres =>
  let word0 : Nat :=
    match idres with
    | some ws => ws.getD 0 0
    | none => env.stackGarbage 0 % 65536
  if ata_device_is_packet dev2 then
    if word0 &&& (1 <<< 15) == 0 && word0 &&& (1 <<< 14) == 0 then (false, dev2)
    else (true, dev2)
  else
    if word0 &&& (1 <<< 15) != 0 then (false, dev2)
    else (true, dev2)

/-- Constant `DEVICE_RANDOM`. Modelled from the spec: the kind tag of the generic
device layer (device.h is not under src/); its numeric value is irrelevant. -/
def DEVICE_RANDOM : Nat := 0

/-- One registry entry: the `struct device` copy stored by `device_register`,
keeping the fields the claims are about — the name, the kind tag and the
`void *p` backing pointer (an address in the one-cell heap model below). -/
structure RegEntry where
  name : String
  dtype : Nat
  p : Nat
deriving DecidableEq, Repr

/-- The address of the single `struct ata_device ata_dev` stack variable of
`ata_install`; it is the only cell of the model heap. -/
def addrAtaDev : Nat := 0

/-- Kernel state for the install/dispatch claims: the contents of the single
`ata_dev` descriptor cell and the device registry. -/
structure KState where
  ataDev : AtaDevice
  registry : List RegEntry
deriving Repr

/-- Modelled from the spec: `device_register` (device.c is not under src/)
stores the passed `struct device` copy into the registry; per the spec the
registry never inspects the backing pointer, only stores and forwards it. -/
def device_register (e : RegEntry) (st : KState) : KState :=
  { st with registry := st.registry ++ [e] }

/-- Embeds `ata_register_device` from ata.c: build a `struct device` with
`type = DEVICE_RANDOM`, the given name, `p` pointing at the caller's
descriptor, and register it. -/
def ata_register_device (name : String) (p : Nat) (st : KState) : KState :=
  device_register { name := name, dtype := DEVICE_RANDOM, p := p } st

/-- Environments of the four detection calls of `ata_install`. -/
structure InstallEnv where
  e0 : DetectEnv
  e1 : DetectEnv
  e2 : DetectEnv
  e3 : DetectEnv

/-- One `if (ata_detect(base, ctl, slave, &ata_dev)) ata_register_device(name,
&ata_dev);` block of `ata_install`: the detect call writes through the shared
descriptor cell whether or not it succeeds, and on success the slot is
registered with the address of that same cell. -/
def ata_install_slot (env : DetectEnv) (base control slave : Nat) (name : String)
    (st : KState) (fuel : Nat) : Option KState :=
  (ata_detect env base control slave st.ataDev fuel).map fun r =>
    let st1 : KState := { st with ataDev := r.2 }
    if r.1 then ata_register_device name addrAtaDev st1 else st1

/-- Embeds `ata_install` from ata.c: the four slot detections, all on the one
`ata_dev` stack variable. -/
def ata_install (env : InstallEnv) (st : KState) (fuel : Nat) : Option KState :=
  (ata_install_slot env.e0 0x1F0 0x3F6 0 "ATA-0" st fuel).bind fun st1 =>
  (ata_install_slot env.e1 0x1F0 0x3F6 16 "ATA-1" st1 fuel).bind fun st2 =>
  (ata_install_slot env.e2 0x170 0x376 0 "ATA-2" st2 fuel).bind fun st3 =>
  ata_install_slot env.e3 0x170 0x376 16 "ATA-3" st3 fuel

/-- Modelled from the spec: registry dispatch of `seek` — look up the entry,
forward the call to the ATA backing implementation through the stored
backing pointer. The only heap cell is `st.ataDev` at `addrAtaDev`. -/
def generic_seek (st : KState) (i : Nat) (p : Nat) : Option (KState × Int) :=
  match st.registry[i]? with
  | none => none
  | some e =>
    if e.p == addrAtaDev then
      let r := ata_seek st.ataDev p
      some ({ st with ataDev := r.1 }, r.2)
    else none

/-- Modelled from the spec: registry dispatch of `read` — look up the entry
and forward to `ata_read` on the descriptor the stored backing pointer
points at. -/
def generic_read (env : Env) (st : KState) (i : Nat) (sizeIn fuel : Nat) :
    Option ReadOut :=
  match st.registry[i]? with
  | none => none
  | some e =>
    if e.p == addrAtaDev then ata_read env st.ataDev sizeIn fuel else none

/-!
### Helper lemmas
-/

/-- A polling loop whose exit condition never holds (from `start` on) does not
exit within any amount of fuel. -/
theorem findFirst_eq_none {p : Nat → Bool} {f : Nat → Nat} (start fuel : Nat)
    (h : ∀ n, start ≤ n → p (f n % 256) = false) :
    findFirst p f start fuel = none := by
  induction fuel generalizing start with
  | zero => rfl
  | succ m ih =>
    unfold findFirst
    rw [h start le_rfl]
    exact ih (start + 1) fun n hn => h n (by omega)

/-- A polling loop that exits does so at an index no earlier than `start`, at
which the exit condition holds. -/
theorem findFirst_eq_some_spec {p : Nat → Bool} {f : Nat → Nat}
    {start fuel k : Nat} (h : findFirst p f start fuel = some k) :
    start ≤ k ∧ p (f k % 256) = true := by
  induction fuel generalizing start with
  | zero => cases h
  | succ m ih =>
    unfold findFirst at h
    by_cases hp : p (f start % 256) = true
    · rw [if_pos hp] at h
      cases h
      exact ⟨le_rfl, hp⟩
    · rw [if_neg hp] at h
      have := ih h
      exact ⟨by omega, this.2⟩

/-- Anatomy of a completed `atapi_read_block` call: the descriptor is passed
through unchanged, and on the non-error path the hardware-reported size is a
16-bit value, the caller buffer receives exactly `size / 2` words, the packet
sent is the READ(12) packet for `lba`, and the C return value is `size`. -/
theorem atapi_read_block_spec {env : Env} {dev : AtaDevice}
    {lba maxlen fuel : Nat} {out : BlockReadOut}
    (h : atapi_read_block env dev lba maxlen fuel = some out) :
    out.dev = dev ∧
    (out.err = false →
      out.size < 65536 ∧
      out.buffer.length = out.size / 2 ∧
      out.packet = atapiPacket lba ∧
      out.cret = (out.size : Int)) := by
  unfold atapi_read_block at h
  rcases Option.bind_eq_some.mp h with ⟨k1, hk1, h⟩
  rcases Option.bind_eq_some.mp h with ⟨k2, hk2, h⟩
  by_cases herr : (env.statusSeq k2 % 256 &&& 0x1 != 0) = true
  · rw [if_pos herr] at h
    cases h
    exact ⟨rfl, by intro hc; cases hc⟩
  · rw [if_neg herr] at h
    rcases Option.map_eq_some'.mp h with ⟨k3, hk3, hout⟩
    subst hout
    refine ⟨rfl, fun _ => ⟨?_, ?_, rfl, rfl⟩⟩
    · have hhi : (env.lbahi % 256) <<< 8 < 65536 := by
        have : env.lbahi % 256 < 256 := Nat.mod_lt _ (by norm_num)
        rw [Nat.shiftLeft_eq]
        omega
      have hmid : env.lbamid % 256 < 65536 := by
        have : env.lbamid % 256 < 256 := Nat.mod_lt _ (by norm_num)
        omega
      have := Nat.or_lt_two_pow (n := 16) (by simpa using hhi) (by simpa using hmid)
      simpa using this
    · simp

/-!
### Concrete devices and environments used to instantiate the claims
-/

/-- An uninitialized descriptor as `ata_install` starts with: the `type`
field of the stack variable is arbitrary; zero stands in for the garbage. -/
def devInit : AtaDevice :=
  { type := AtaType.unknown, base_port := 0, control_port := 0, slave_bit := 0,
    lba48_support := 0, lba48_total := 0, lba28_total := 0, pos := 0 }

/-- A detected PATA descriptor on the primary channel, cursor at block 0. -/
def dev0 : AtaDevice :=
  { type := AtaType.pata, base_port := 0x1F0, control_port := 0x3F6,
    slave_bit := 0, lba48_support := 0, lba48_total := 0, lba28_total := 0,
    pos := 0 }

/-- A well-behaved device for `atapi_read_block`: busy already clear (first
status 0), data-request on the next poll (status 8), command completion on
the poll after the transfer (status 0), reported transfer size 6 bytes
(LBA-mid 6, LBA-high 0), data words all zero. -/
def envOkRead : Env :=
  { statusSeq := fun n => if n == 0 then 0 else if n == 1 then 8 else 0,
    lbamid := 6, lbahi := 0, dataSeq := fun _ => 0 }

/-- Same handshake as `envOkRead` but the device reports an odd transfer
size of 3 bytes. -/
def envOddRead : Env :=
  { statusSeq := fun n => if n == 0 then 0 else if n == 1 then 8 else 0,
    lbamid := 3, lbahi := 0, dataSeq := fun _ => 0 }

/-- A device that raises the error bit during the PACKET handshake: busy
clear at once (status 0), then status 1 (error) on the data-request poll. -/
def envErrRead : Env :=
  { statusSeq := fun n => if n == 0 then 0 else 1,
    lbamid := 0, lbahi := 0, dataSeq := fun _ => 0 }

/-- The outcome of `ata_read envOkRead dev0 2048 10`: success, reported size
6, three data words, the packet for LBA 0. -/
def outOkRead : ReadOut :=
  { block := { dev := dev0, err := false, size := 6, packet := atapiPacket 0,
               buffer := [0, 0, 0] },
    sizeOut := 6, ret := OK }

/-- A status port that always reads busy (0x80). -/
def envBusyId : Env :=
  { statusSeq := fun _ => 0x80, lbamid := 0, lbahi := 0, dataSeq := fun _ => 0 }

/-- A detection environment whose post-reset busy wait never ends. -/
def envBusyDetect : DetectEnv :=
  { resetStatusSeq := fun _ => 0x80, sigMid := 0, sigHi := 0,
    idEnv := envBusyId, stackGarbage := fun _ => 0 }

/-- A device that never raises data-request nor error during the PACKET
handshake: status constantly 0. -/
def envNoDrq : Env :=
  { statusSeq := fun _ => 0, lbamid := 0, lbahi := 0, dataSeq := fun _ => 0 }

/-- A device whose completion poll never ends: busy clear at once, then
data-request (bit 3) held high forever, so `status & 0x88` never clears. -/
def envStuckCompl : Env :=
  { statusSeq := fun n => if n == 0 then 0 else 8,
    lbamid := 0, lbahi := 0, dataSeq := fun _ => 0 }

/-- The block-read outcome of `atapi_read_block envOddRead dev0 7 2048 10`:
success with the odd reported size 3, a single transferred word. -/
def blockOutOdd : BlockReadOut :=
  { dev := dev0, err := false, size := 3, packet := atapiPacket 7, buffer := [0] }

/-- An IDENTIFY environment in which the drive is absent: the status port
reads 0 — busy is clear at once and the zero-status check makes
`ata_cmd_identify` return 0. -/
def envIdFail : Env :=
  { statusSeq := fun _ => 0, lbamid := 0, lbahi := 0, dataSeq := fun _ => 0 }

/-- A detection environment whose IDENTIFY handshake fails (absent drive)
while the signature bytes read `(0, 0)` (PATA) and the uninitialized stack
buffer happens to contain zeros. -/
def envDetectIdFail : DetectEnv :=
  { resetStatusSeq := fun _ => 0x40, sigMid := 0, sigHi := 0,
    idEnv := envIdFail, stackGarbage := fun _ => 0 }

/-- An IDENTIFY environment of a well-behaved drive: ready status 0x40, then
data-request 0x48, LBA-mid/high zero, identification words all zero. -/
def envIdOk : Env :=
  { statusSeq := fun n => if n == 0 then 0x40 else 0x48,
    lbamid := 0, lbahi := 0, dataSeq := fun _ => 0 }

/-- A detection environment with an unrecognized signature byte pair
`(1, 2)` and a successful IDENTIFY handshake. -/
def envDetectUnknownSig : DetectEnv :=
  { resetStatusSeq := fun _ => 0x40, sigMid := 1, sigHi := 2,
    idEnv := envIdOk, stackGarbage := fun _ => 0 }

/-- The descriptor `ata_detect envDetectUnknownSig 0x1F0 0x3F6 0 devInit`
writes back: ports filled in, classification still Unknown. -/
def cDevUnknownSig : AtaDevice :=
  { type := AtaType.unknown, base_port := 0x1F0, control_port := 0x3F6,
    slave_bit := 0, lba48_support := 0, lba48_total := 0, lba28_total := 0,
    pos := 0 }

/-!
### Claims
-/

/-- Claim C1 (amended): on every completed non-error `ata_read` call the
capacity field is set to exactly the hardware-reported transfer size, and the
caller buffer receives exactly `size / 2` sixteen-bit words — which stays
within the caller capacity whenever the reported size does not exceed it.
(The unamended bound fails: the code never clamps the reported size to
`max_len`; see the counterexample.) -/
theorem c1_read_reported_size (env : Env) (dev : AtaDevice) (sizeIn fuel : Nat)
    (out : ReadOut) (h : ata_read env dev sizeIn fuel = some out)
    (hok : out.block.err = false) :
    out.sizeOut = out.block.size ∧
    out.block.buffer.length = out.block.size / 2 ∧
    (out.block.size ≤ sizeIn → 2 * out.block.buffer.length ≤ sizeIn) := by
  unfold ata_read at h
  rcases Option.map_eq_some'.mp h with ⟨o, ho, hout⟩
  subst hout
  obtain ⟨-, hspec⟩ := atapi_read_block_spec ho
  obtain ⟨hlt, hlen, -, hcret⟩ := hspec hok
  refine ⟨?_, hlen, ?_⟩
  · show (o.cret.emod 4294967296).toNat = o.size
    rw [hcret]
    have hlt32 : (o.size : Int) < 4294967296 := by exact_mod_cast by omega
    show (((o.size : Int) % 4294967296)).toNat = o.size
    rw [Int.emod_eq_of_lt (by positivity) hlt32]
    simp
  · intro hle
    show 2 * o.buffer.length ≤ sizeIn
    replace hle : o.size ≤ sizeIn := hle
    omega

/-- Witness for C1: a concrete successful read with capacity 2048 and
reported size 6. -/
theorem c1_read_reported_size_witness :
    outOkRead.sizeOut = outOkRead.block.size ∧
    outOkRead.block.buffer.length = outOkRead.block.size / 2 ∧
    (outOkRead.block.size ≤ 2048 → 2 * outOkRead.block.buffer.length ≤ 2048) :=
  c1_read_reported_size envOkRead dev0 2048 10 outOkRead (by rfl) (by rfl)

/-- Claim C1 counterexample to the claim as stated: with caller capacity 0 the
read path still transfers 3 words — 6 bytes — into the caller's buffer,
because the code transfers `size / 2` words for whatever size the hardware
reports, with no clamp to `max_len`. -/
theorem c1_capacity_counterexample :
    (ata_read envOkRead dev0 0 10).map (fun o => 2 * o.block.buffer.length) =
      some 6 ∧ 0 < 6 := by
  exact ⟨rfl, by omega⟩

/-- Claim C3 (code-bug evidence): when the hardware raises the error bit during
the PACKET handshake, `atapi_read_block` takes its `-1` path, yet `ata_read`
still returns `OK` and stores the `-1` cast to `uint32_t` (4294967295) into
the caller's capacity field: the protocol failure is never propagated as a
failure result. -/
theorem c3_error_swallowed :
    (atapi_read_block envErrRead dev0 0 2048 10).map (fun o => o.err) =
      some true ∧
    (ata_read envErrRead dev0 2048 10).map (fun o => (o.ret, o.sizeOut)) =
      some (OK, 4294967295) := by
  exact ⟨rfl, rfl⟩

/-- Claim C4 (code-bug evidence): the body of `ata_write` is empty. The call
leaves the descriptor and the size cell untouched, and its return value is
whatever indeterminate value sits in the return register — it can be `OK`
(reporting success) just as well as 7; no explicit Unsupported failure is
ever produced. -/
theorem c4_write_indeterminate :
    ata_write OK dev0 5 = (dev0, 5, OK) ∧ ata_write 7 dev0 5 = (dev0, 5, 7) :=
  ⟨rfl, rfl⟩

/-- Claim C5 (code-bug evidence): a slot whose IDENTIFY handshake fails (absent
drive: status reads zero, `ata_cmd_identify` returns 0) is not excluded:
`ata_detect` goes on to validate word 0 of the uninitialized stack buffer and
returns success, classifying the slot as PATA. -/
theorem c5_identify_failure_not_propagated :
    ata_cmd_identify envIdFail 10 = some none ∧
    (ata_detect envDetectIdFail 0x1F0 0x3F6 0 devInit 10).map
      (fun r => (r.1, r.2.type)) = some (true, AtaType.pata) := by
  exact ⟨rfl, rfl⟩

/-- Claim C10: When the device reports an odd transfer size n, the code
transfers `n / 2` words — `n - 1` bytes — into the caller buffer, yet the
C return value is still n: the reported count exceeds the bytes written by
one. -/
theorem c10_odd_size_off_by_one (env : Env) (dev : AtaDevice)
    (lba ml fuel : Nat) (out : BlockReadOut)
    (h : atapi_read_block env dev lba ml fuel = some out)
    (hok : out.err = false) (hodd : out.size % 2 = 1) :
    2 * out.buffer.length = out.size - 1 ∧ out.cret = (out.size : Int) := by
  obtain ⟨-, hspec⟩ := atapi_read_block_spec h
  obtain ⟨-, hlen, -, hcret⟩ := hspec hok
  exact ⟨by omega, hcret⟩

/-- Witness for C10: reported size 3, one word (2 bytes) transferred,
return value 3. -/
theorem c10_odd_size_off_by_one_witness :
    2 * blockOutOdd.buffer.length = blockOutOdd.size - 1 ∧
    blockOutOdd.cret = (blockOutOdd.size : Int) :=
  c10_odd_size_off_by_one envOddRead dev0 7 2048 10 blockOutOdd (by rfl)
    (by rfl) (by rfl)

/-- Claim C6: Every polling loop of the protocol engine is unbounded: there are
status sequences (always-busy for the busy-clear waits of detect and
identify and for the first poll of `atapi_read_block`; never
data-request/error for its second poll; data-request held high forever for
its completion poll) on which the loop never exits, so the enclosing
operation returns `none` for every amount of fuel — the caller stalls
indefinitely. -/
theorem c6_unbounded_polling :
    (∀ fuel start, ata_wait_bsy_clear (fun _ => 0x80) start fuel = none) ∧
    (∀ fuel, ata_cmd_identify envBusyId fuel = none) ∧
    (∀ fuel dev base control slave,
      ata_detect envBusyDetect base control slave dev fuel = none) ∧
    (∀ fuel dev lba ml, atapi_read_block envBusyId dev lba ml fuel = none) ∧
    (∀ fuel dev lba ml, atapi_read_block envNoDrq dev lba ml fuel = none) ∧
    (∀ fuel dev lba ml, atapi_read_block envStuckCompl dev lba ml fuel = none) := by
  have hbusy : ∀ start fuel,
      findFirst (fun s => !ATA_ISBSY s) (fun _ => 0x80) start fuel = none :=
    fun start fuel => findFirst_eq_none start fuel (fun n _ => rfl)
  have hbusyId : ∀ start fuel,
      findFirst (fun s => !ATA_ISBSY s) envBusyId.statusSeq start fuel = none :=
    fun start fuel => findFirst_eq_none start fuel
      (fun n _ => by simp [envBusyId, ATA_ISBSY])
  have hbusyDet : ∀ start fuel,
      findFirst (fun s => !ATA_ISBSY s) envBusyDetect.resetStatusSeq start fuel =
        none :=
    fun start fuel => findFirst_eq_none start fuel
      (fun n _ => by simp [envBusyDetect, ATA_ISBSY])
  have hbusy2 : ∀ start fuel,
      findFirst (fun s => s &&& 0x80 == 0) envBusyId.statusSeq start fuel = none :=
    fun start fuel => findFirst_eq_none start fuel
      (fun n _ => by simp [envBusyId])
  have hnodrq : ∀ start fuel,
      findFirst (fun s => s &&& 0x8 != 0 || s &&& 0x1 != 0) envNoDrq.statusSeq
        start fuel = none :=
    fun start fuel => findFirst_eq_none start fuel
      (fun n _ => by simp [envNoDrq])
  have hstuck3 : ∀ start fuel, 1 ≤ start →
      findFirst (fun s => s &&& 0x88 == 0) envStuckCompl.statusSeq start fuel =
        none := by
    intro start fuel hs
    refine findFirst_eq_none start fuel (fun n hn => ?_)
    have hne : (n == 0) = false := by
      have : n ≠ 0 := by omega
      simpa using this
    show (envStuckCompl.statusSeq n % 256 &&& 0x88 == 0) = false
    simp only [envStuckCompl, hne]
    rfl
  refine ⟨?_, ?_, ?_, ?_, ?_, ?_⟩
  · intro fuel start
    unfold ata_wait_bsy_clear
    rw [hbusy]
    rfl
  · intro fuel
    unfold ata_cmd_identify ata_wait_bsy_clear
    rw [hbusyId]
    rfl
  · intro fuel dev base control slave
    unfold ata_detect ata_wait_bsy_clear
    rw [hbusyDet]
    rfl
  · intro fuel dev lba ml
    unfold atapi_read_block
    rw [hbusy2]
    rfl
  · intro fuel dev lba ml
    unfold atapi_read_block
    cases hk1 : findFirst (fun s => s &&& 0x80 == 0) envNoDrq.statusSeq 0 fuel with
    | none => rfl
    | some k1 =>
      simp only [Option.some_bind, hnodrq]
      rfl
  · intro fuel dev lba ml
    unfold atapi_read_block
    cases hk1 : findFirst (fun s => s &&& 0x80 == 0) envStuckCompl.statusSeq 0
        fuel with
    | none => rfl
    | some k1 =>
      simp only [Option.some_bind]
      cases hk2 : findFirst (fun s => s &&& 0x8 != 0 || s &&& 0x1 != 0)
          envStuckCompl.statusSeq (k1 + 1) fuel with
      | none => rfl
      | some k2 =>
        simp only [Option.some_bind]
        have hspec := findFirst_eq_some_spec hk2
        have hne : (k2 == 0) = false := by
          have : k2 ≠ 0 := by omega
          simpa using this
        have hcond : (envStuckCompl.statusSeq k2 % 256 &&& 0x1 != 0) = false := by
          simp only [envStuckCompl, hne]
          rfl
        rw [hcond, hstuck3 (k2 + 1) fuel (by omega)]
        rfl

/-- A read completed through `ata_read` sent the READ(12) packet for the
descriptor's current cursor position. -/
theorem ata_read_packet {env : Env} {dev : AtaDevice} {sizeIn fuel : Nat}
    {out : ReadOut} (h : ata_read env dev sizeIn fuel = some out)
    (hok : out.block.err = false) :
    out.block.packet = atapiPacket dev.pos := by
  unfold ata_read at h
  rcases Option.map_eq_some'.mp h with ⟨o, ho, hout⟩
  subst hout
  obtain ⟨-, hspec⟩ := atapi_read_block_spec ho
  exact (hspec hok).2.2.1

/-- Claim C2 counterexample to the claim as stated: on the unrecognized
signature pair `(1, 2)` (with an incoming Unknown classification and a
drive that answers IDENTIFY with word 0 equal to 0) `ata_detect` reports
success — and the returned descriptor's classification is Unknown. -/
theorem c2_unknown_signature_counterexample :
    (ata_detect envDetectUnknownSig 0x1F0 0x3F6 0 devInit 10).map
      (fun r => (r.1, r.2.type)) = some (true, AtaType.unknown) := by
  rfl

/-- Claim C2 (amended): the signature classification is exact-match for the
four known byte pairs; any other pair leaves the classification field
unchanged from its incoming value (it is never reset to Unknown, and
`ata_detect` performs no Unknown check before reporting success): the type
written back by `ata_detect` is always exactly `classifySig` of the incoming
type and the two signature bytes. -/
theorem c2_signature_classification (t : AtaType) (mid hi : Nat) :
    classifySig t 0x14 0xEB = AtaType.patapi ∧
    classifySig t 0x69 0x96 = AtaType.satapi ∧
    classifySig t 0 0 = AtaType.pata ∧
    classifySig t 0x3C 0xC3 = AtaType.sata ∧
    (¬(mid = 0x14 ∧ hi = 0xEB) → ¬(mid = 0x69 ∧ hi = 0x96) →
      ¬(mid = 0 ∧ hi = 0) → ¬(mid = 0x3C ∧ hi = 0xC3) →
      classifySig t mid hi = t) ∧
    (∀ env base control slave dev fuel r,
      ata_detect env base control slave dev fuel = some r →
      r.2.type = classifySig dev.type (env.sigMid % 256) (env.sigHi % 256)) := by
  refine ⟨rfl, rfl, rfl, rfl, ?_, ?_⟩
  · intro h1 h2 h3 h4
    unfold classifySig
    split_ifs with hA hB hC hD
    · simp only [Bool.and_eq_true, beq_iff_eq] at hA
      exact absurd hA h1
    · simp only [Bool.and_eq_true, beq_iff_eq] at hB
      exact absurd hB h2
    · simp only [Bool.and_eq_true, beq_iff_eq] at hC
      exact absurd hC h3
    · simp only [Bool.and_eq_true, beq_iff_eq] at hD
      exact absurd hD h4
    · rfl
  · intro env base control slave dev fuel r h
    unfold ata_detect at h
    rcases Option.bind_eq_some.mp h with ⟨sn, hsn, h⟩
    rcases Option.map_eq_some'.mp h with ⟨idres, hid, hr⟩
    subst hr
    dsimp only
    split_ifs <;> rfl

/-- Witness for C2: the unknown pair `(1, 2)` leaves an Unknown
classification in place, both through `classifySig` directly and through a
completed `ata_detect` call. -/
theorem c2_signature_classification_witness :
    classifySig AtaType.unknown 1 2 = AtaType.unknown ∧
    cDevUnknownSig.type =
      classifySig devInit.type (envDetectUnknownSig.sigMid % 256)
        (envDetectUnknownSig.sigHi % 256) := by
  have h := c2_signature_classification AtaType.unknown 1 2
  refine ⟨h.2.2.2.2.1 (by omega) (by omega) (by omega) (by omega), ?_⟩
  exact h.2.2.2.2.2 envDetectUnknownSig 0x1F0 0x3F6 0 devInit 10
    (true, cDevUnknownSig) (by rfl)

/-- Claim C7: `ata_seek` returns success for every device and every position
(no bounds or existence validation), and a read issued immediately
afterwards uses that position as the logical block address of the READ(12)
packet sent to the block-read primitive. -/
theorem c7_seek_position_used_by_read (dev : AtaDevice) (P : Nat) :
    (ata_seek dev P).2 = OK ∧
    (P < 4294967296 →
      (ata_seek dev P).1.pos = P ∧
      ∀ env ml fuel out, ata_read env (ata_seek dev P).1 ml fuel = some out →
        out.block.err = false → out.block.packet = atapiPacket P) := by
  refine ⟨rfl, fun hP => ⟨Nat.mod_eq_of_lt hP, ?_⟩⟩
  intro env ml fuel out h hok
  have hpk := ata_read_packet h hok
  rw [hpk]
  have hpos : (ata_seek dev P).1.pos = P := Nat.mod_eq_of_lt hP
  rw [hpos]

/-- The descriptor after `seek(dev0, 5)`. -/
def devSeek5 : AtaDevice := { dev0 with pos := 5 }

/-- The outcome of `ata_read envOkRead devSeek5 2048 10`: the packet carries
LBA 5. -/
def outSeekRead : ReadOut :=
  { block := { dev := devSeek5, err := false, size := 6,
               packet := atapiPacket 5, buffer := [0, 0, 0] },
    sizeOut := 6, ret := OK }

/-- Witness for C7: seek to 5, then a successful concrete read whose packet
encodes LBA 5. -/
theorem c7_seek_position_used_by_read_witness :
    (ata_seek dev0 5).2 = OK ∧ (ata_seek dev0 5).1.pos = 5 ∧
    outSeekRead.block.packet = atapiPacket 5 := by
  have h := c7_seek_position_used_by_read dev0 5
  have h2 := h.2 (by omega)
  exact ⟨h.1, h2.1, h2.2 envOkRead 2048 10 outSeekRead (by rfl) (by rfl)⟩

/-- Claim C8: A read call — succeeding or failing — leaves the descriptor
completely unchanged (classification, ports, slave selector, capability
fields and cursor), and a seek changes only the cursor: every other field
keeps its value. -/
theorem c8_descriptor_frame (env : Env) (dev : AtaDevice) (sizeIn fuel : Nat)
    (out : ReadOut) (h : ata_read env dev sizeIn fuel = some out) :
    out.block.dev = dev ∧
    ∀ P, (ata_seek dev P).1.type = dev.type ∧
      (ata_seek dev P).1.base_port = dev.base_port ∧
      (ata_seek dev P).1.control_port = dev.control_port ∧
      (ata_seek dev P).1.slave_bit = dev.slave_bit ∧
      (ata_seek dev P).1.lba48_support = dev.lba48_support ∧
      (ata_seek dev P).1.lba48_total = dev.lba48_total ∧
      (ata_seek dev P).1.lba28_total = dev.lba28_total := by
  unfold ata_read at h
  rcases Option.map_eq_some'.mp h with ⟨o, ho, hout⟩
  subst hout
  exact ⟨(atapi_read_block_spec ho).1, fun P => ⟨rfl, rfl, rfl, rfl, rfl, rfl, rfl⟩⟩

/-- Witness for C8: a concrete completed read returning the untouched
descriptor, and a concrete seek touching nothing but the cursor. -/
theorem c8_descriptor_frame_witness :
    outOkRead.block.dev = dev0 ∧
    (ata_seek dev0 9).1.type = dev0.type ∧
    (ata_seek dev0 9).1.base_port = dev0.base_port := by
  have h := c8_descriptor_frame envOkRead dev0 2048 10 outOkRead (by rfl)
  exact ⟨h.1, (h.2 9).1, (h.2 9).2.1⟩

/-- A slot registered by `ata_install_slot` either predates the call or
carries the shared descriptor address as its backing pointer. -/
theorem ata_install_slot_registry {env : DetectEnv} {base control slave : Nat}
    {name : String} {st : KState} {fuel : Nat} {st1 : KState}
    (h : ata_install_slot env base control slave name st fuel = some st1) :
    ∀ e ∈ st1.registry, e ∈ st.registry ∨ e.p = addrAtaDev := by
  unfold ata_install_slot at h
  rcases Option.map_eq_some'.mp h with ⟨r, hr, hst⟩
  subst hst
  rcases r with ⟨ok, d⟩
  cases ok
  · intro e he
    exact Or.inl he
  · intro e he
    have he' : e ∈ st.registry ++
        [({ name := name, dtype := DEVICE_RANDOM, p := addrAtaDev } : RegEntry)] :=
      he
    rcases List.mem_append.mp he' with h1 | h2
    · exact Or.inl h1
    · right
      rw [List.mem_singleton.mp h2]

/-- Dispatching `seek` through any registry entry that points at the shared
descriptor cell returns `OK`, leaves the registry unchanged and rewrites the
shared descriptor's cursor to the (32-bit truncated) position. -/
theorem generic_seek_spec {st : KState} {i P : Nat} {st2 : KState} {r : Int}
    (h : generic_seek st i P = some (st2, r)) :
    r = OK ∧ st2.registry = st.registry ∧ st2.ataDev.pos = P % 4294967296 := by
  unfold generic_seek at h
  split at h
  · cases h
  · next e heq =>
    split at h
    · have h2 := Option.some.inj h
      have hst2 : st2 =
          { ataDev := (ata_seek st.ataDev P).1, registry := st.registry } :=
        (congrArg Prod.fst h2).symm
      have hr : r = (ata_seek st.ataDev P).2 := (congrArg Prod.snd h2).symm
      refine ⟨hr, ?_, ?_⟩
      · rw [hst2]
      · rw [hst2]
        rfl
    · cases h

/-- A read dispatched through the registry sends the READ(12) packet for the
shared descriptor's current cursor. -/
theorem generic_read_packet {renv : Env} {st : KState} {j ml fl : Nat}
    {out : ReadOut} (h : generic_read renv st j ml fl = some out)
    (hok : out.block.err = false) :
    out.block.packet = atapiPacket st.ataDev.pos := by
  unfold generic_read at h
  split at h
  · cases h
  · split at h
    · exact ata_read_packet h hok
    · cases h

/-- Claim C9: `ata_install` runs all four detections on one single descriptor
cell and registers every successful slot with the address of that same cell:
every entry the install adds to the registry carries `addrAtaDev` as its
backing pointer. Consequently a seek dispatched through any registered entry
rewrites the position of the one shared descriptor, and a read dispatched
through any entry — the same or another — sends the READ(12) packet for
that new position. -/
theorem c9_single_shared_descriptor (env : InstallEnv) (st : KState)
    (fuel : Nat) (stF : KState) (h : ata_install env st fuel = some stF) :
    (∀ e ∈ stF.registry, e ∈ st.registry ∨ e.p = addrAtaDev) ∧
    (∀ i P st2 r, generic_seek stF i P = some (st2, r) →
      r = OK ∧ st2.registry = stF.registry ∧
      st2.ataDev.pos = P % 4294967296 ∧
      (∀ j renv ml fl out, generic_read renv st2 j ml fl = some out →
        out.block.err = false →
        out.block.packet = atapiPacket (P % 4294967296))) := by
  constructor
  · rcases Option.bind_eq_some.mp h with ⟨st1, h1, h⟩
    rcases Option.bind_eq_some.mp h with ⟨st2, h2, h⟩
    rcases Option.bind_eq_some.mp h with ⟨st3, h3, h4⟩
    intro e he
    rcases ata_install_slot_registry h4 e he with h' | h'
    · rcases ata_install_slot_registry h3 e h' with h'' | h''
      · rcases ata_install_slot_registry h2 e h'' with hm | hm
        · rcases ata_install_slot_registry h1 e hm with hn | hn
          · exact Or.inl hn
          · exact Or.inr hn
        · exact Or.inr hm
      · exact Or.inr h''
    · exact Or.inr h'
  · intro i P st2 r hseek
    obtain ⟨hr, hreg, hpos⟩ := generic_seek_spec hseek
    refine ⟨hr, hreg, hpos, ?_⟩
    intro j renv ml fl out hread hok
    rw [generic_read_packet hread hok]
    exact congrArg atapiPacket hpos

/-- A detection environment in which every slot detects as PATA: ready
status, signature `(0, 0)`, successful IDENTIFY with all-zero words. -/
def envDetectPata : DetectEnv :=
  { resetStatusSeq := fun _ => 0x40, sigMid := 0, sigHi := 0,
    idEnv := envIdOk, stackGarbage := fun _ => 0 }

/-- An install run in which all four slots answer. -/
def cInstallEnv : InstallEnv :=
  { e0 := envDetectPata, e1 := envDetectPata, e2 := envDetectPata,
    e3 := envDetectPata }

/-- The kernel state before the install: uninitialized descriptor cell,
empty registry. -/
def cSt0 : KState := { ataDev := devInit, registry := [] }

/-- The state `ata_install cInstallEnv cSt0 10` produces: the shared cell
holds the descriptor of the last slot probed, and all four registered
entries point at `addrAtaDev`. -/
def cStF : KState :=
  { ataDev := { type := AtaType.pata, base_port := 0x170, control_port := 0x376,
                slave_bit := 16, lba48_support := 0, lba48_total := 0,
                lba28_total := 0, pos := 0 },
    registry := [{ name := "ATA-0", dtype := DEVICE_RANDOM, p := addrAtaDev },
                 { name := "ATA-1", dtype := DEVICE_RANDOM, p := addrAtaDev },
                 { name := "ATA-2", dtype := DEVICE_RANDOM, p := addrAtaDev },
                 { name := "ATA-3", dtype := DEVICE_RANDOM, p := addrAtaDev }] }

/-- The state after `generic_seek cStF 0 5`: the one shared descriptor now
has cursor 5. -/
def cSt2 : KState :=
  { ataDev := { type := AtaType.pata, base_port := 0x170, control_port := 0x376,
                slave_bit := 16, lba48_support := 0, lba48_total := 0,
                lba28_total := 0, pos := 5 },
    registry := cStF.registry }

/-- The outcome of `generic_read envOkRead cSt2 1 2048 10`: a read through
entry 1 after the seek through entry 0 — its packet carries LBA 5. -/
def cOut9 : ReadOut :=
  { block := { dev := cSt2.ataDev, err := false, size := 6,
               packet := atapiPacket 5, buffer := [0, 0, 0] },
    sizeOut := 6, ret := OK }

/-- Witness for C9: a concrete install that registers all four slots; the
entry named ATA-1 carries the shared address, a seek through entry 0 sets
the shared cursor to 5, and a read through entry 1 sends the packet for
LBA 5. -/
theorem c9_single_shared_descriptor_witness :
    (({ name := "ATA-1", dtype := DEVICE_RANDOM, p := addrAtaDev } : RegEntry) ∈
        cSt0.registry ∨
      ({ name := "ATA-1", dtype := DEVICE_RANDOM, p := addrAtaDev } :
        RegEntry).p = addrAtaDev) ∧
    cSt2.ataDev.pos = 5 % 4294967296 ∧
    cOut9.block.packet = atapiPacket (5 % 4294967296) := by
  have h := c9_single_shared_descriptor cInstallEnv cSt0 10 cStF (by rfl)
  have hmem := h.1 { name := "ATA-1", dtype := DEVICE_RANDOM, p := addrAtaDev }
    (by decide)
  have hs := h.2 0 5 cSt2 OK (by rfl)
  exact ⟨hmem, hs.2.2.1, hs.2.2.2 1 envOkRead 2048 10 cOut9 (by rfl) (by rfl)⟩

end Alien
